import Mathlib

/-!
Shallow embedding of the Instamart profitability engine's synthetic order
generator (`src/data_pipeline/instamart_unit_economics_gen.py`) and of the
chronological train/test split of the demand forecaster
(`src/models_and_tests/swiggy_demand_forecast.py`), together with theorems
settling the specification claims about them.

Modelling conventions:
* Python floats are modelled by `ℚ`; `round(x, 2)` is modelled by `round2`
  (round half away from ties differs from Python's banker's rounding only at
  exact ties, which does not affect any bound proved here).
* Each random draw of the generator loop body is an explicit field of a
  `Draws` record; the guaranteed ranges of the library samplers
  (`random.randint`, `random.uniform`, `np.random.choice`) appear as the
  decidable predicate `Draws.Valid`.
* `order_time` is modelled as minutes elapsed since `start_date`
  (`datetime(2025, 1, 1)`, i.e. midnight), so the timestamp built from
  `timedelta(days, hours, minutes)` is `day * 1440 + hour * 60 + minute`.
-/

namespace Instamart

/-- `zones = ['Indiranagar', 'Koramangala', 'HSR Layout', 'Whitefield', 'Jayanagar']`. -/
abbrev zones : List String :=
  ["Indiranagar", "Koramangala", "HSR Layout", "Whitefield", "Jayanagar"]

/-- `weather_options = ['Clear', 'Rainy', 'Cloudy']`. -/
abbrev weather_options : List String := ["Clear", "Rainy", "Cloudy"]

/-- `item_categories = ['Perishable', 'Snacks', 'Home Needs', 'Beverages']`. -/
abbrev item_categories : List String :=
  ["Perishable", "Snacks", "Home Needs", "Beverages"]

/-- The list given to `random.choice([0, 0, 0, 50, 100])` for the discount. -/
abbrev discountChoices : List ℤ := [0, 0, 0, 50, 100]

/-- The raw 24-entry hour-of-day weight vector:
`np.array([0.01]*7 + [0.04]*5 + [0.03]*5 + [0.11]*5 + [0.02]*2)`. -/
def probs : List ℚ :=
  List.replicate 7 (1/100) ++ List.replicate 5 (4/100) ++
  List.replicate 5 (3/100) ++ List.replicate 5 (11/100) ++
  List.replicate 2 (2/100)

/-- `probs /= probs.sum()` — the normalized hour-of-day probability vector. -/
def normalized_probs : List ℚ := probs.map (fun p => p / probs.sum)

/-- Probability that `np.random.choice(range(24), p=probs)` returns hour `h`. -/
def hourProb (h : ℕ) : ℚ := normalized_probs.getD h 0

/-- The lunch/dinner hour set named by the spec: {12,13,14,15,16,19,20,21,22,23}. -/
def peakHours : Finset ℕ := {12, 13, 14, 15, 16, 19, 20, 21, 22, 23}

/-- Python's `round(x, 2)` over the rational model: round `100 * x` to the
nearest integer and divide by `100`. -/
def round2 (q : ℚ) : ℚ := ((round (100 * q) : ℤ) : ℚ) / 100

/-- The random draws consumed by one iteration of the generator loop, in
source order.  Fields drawn by `random.choice` from a literal list are
modelled as the chosen index into that list. -/
structure Draws where
  /-- `np.random.choice(range(24), p=probs)` -/
  hour : ℕ
  /-- `random.randint(0, 30)` (day offset) -/
  day : ℕ
  /-- `random.randint(0, 59)` (minute) -/
  minute : ℕ
  /-- index chosen by `random.choice(zones)` -/
  zone_idx : Fin 5
  /-- index chosen by `random.choice(item_categories)` -/
  category_idx : Fin 4
  /-- `random.uniform(150, 1200)`, before `round(·, 2)` -/
  order_value_raw : ℚ
  /-- index chosen by `np.random.choice(weather_options, p=[0.7, 0.15, 0.15])` -/
  weather_idx : Fin 3
  /-- `random.randint(10, 25)` -/
  base_delivery : ℤ
  /-- index chosen by `random.choice([0, 0, 0, 50, 100])` -/
  discount_idx : Fin 5
  /-- `random.randint(1, 48)` (only used when the category is Perishable) -/
  freshness_draw : ℤ
deriving DecidableEq, Repr

/-- The ranges the library samplers guarantee for each draw. -/
def Draws.Valid (d : Draws) : Prop :=
  d.hour ≤ 23 ∧ d.day ≤ 30 ∧ d.minute ≤ 59 ∧
  150 ≤ d.order_value_raw ∧ d.order_value_raw ≤ 1200 ∧
  10 ≤ d.base_delivery ∧ d.base_delivery ≤ 25 ∧
  1 ≤ d.freshness_draw ∧ d.freshness_draw ≤ 48

instance (d : Draws) : Decidable d.Valid := by
  unfold Draws.Valid; infer_instance

/-- One element of the `data` list built inside the loop: the ten per-order
fields, in the column order of the source. -/
structure Order where
  order_id : ℕ
  /-- minutes since `start_date = datetime(2025, 1, 1)` (midnight) -/
  order_time_mins : ℕ
  zone : String
  category : String
  order_value : ℚ
  delivery_time_mins : ℤ
  weather : String
  delivery_cost : ℤ
  discount : ℤ
  freshness_hrs_left : ℤ
deriving DecidableEq, Repr

/-- The body of `for i in range(n)` in `generate_swiggy_data`: builds the
ten-field record appended to `data` at index `i` from that iteration's draws. -/
def makeOrder (i : ℕ) (d : Draws) : Order :=
  let weather := weather_options.get d.weather_idx
  let delivery_time : ℤ := d.base_delivery + (if weather = "Rainy" then 15 else 0)
  let category := item_categories.get d.category_idx
  { order_id := 100000 + i
    order_time_mins := d.day * 1440 + d.hour * 60 + d.minute
    zone := zones.get d.zone_idx
    category := category
    order_value := round2 d.order_value_raw
    delivery_time_mins := delivery_time
    weather := weather
    delivery_cost := 40 + (if delivery_time > 30 then 5 else 0)
    discount := discountChoices.get d.discount_idx
    freshness_hrs_left :=
      if category = "Perishable" then d.freshness_draw else 500 }

/-- A row of the final DataFrame: the ten generated columns plus the
`contribution_margin` column added after assembly. -/
structure Row extends Order where
  contribution_margin : ℚ
deriving DecidableEq, Repr

/-- `df['contribution_margin'] = df['order_value'] - df['delivery_cost'] - df['discount']`,
applied to one row. -/
def addContributionMargin (o : Order) : Row :=
  { o with
    contribution_margin :=
      o.order_value - (o.delivery_cost : ℚ) - (o.discount : ℚ) }

/-- `generate_swiggy_data(n)`: the list of rows of the returned DataFrame,
with the randomness of iteration `i` supplied by `draws i`. -/
def generate_swiggy_data (n : ℕ) (draws : ℕ → Draws) : List Row :=
  (List.range n).map (fun i => addContributionMargin (makeOrder i (draws i)))

/-- The `columns` list of the ten generated fields, in source order. -/
def baseColumns : List String :=
  ["order_id", "order_time", "zone", "category", "order_value",
   "delivery_time_mins", "weather", "delivery_cost", "discount",
   "freshness_hrs_left"]

/-- The columns of the returned DataFrame: the ten generated columns followed
by `contribution_margin`, appended by the assignment after assembly. -/
def dataframeColumns : List String := baseColumns ++ ["contribution_margin"]

/-- Hour-of-day component of a timestamp measured in minutes since midnight. -/
def hourOfDay (t : ℕ) : ℕ := t / 60 % 24

/-- A fixed sample of draws, inside every sampler's range, used to witness
the hypothesised theorems on concrete input. -/
def exDraws : Draws :=
  { hour := 13, day := 2, minute := 30, zone_idx := 0, category_idx := 0,
    order_value_raw := 600, weather_idx := 1, base_delivery := 20,
    discount_idx := 3, freshness_draw := 10 }

end Instamart

namespace Forecast

/-- `train = ts_features.iloc[:-48]`: Python's `l[:-48]` keeps everything
before the last 48 elements (all of `l` drops to nothing when `l` is shorter,
matching truncated subtraction). -/
def trainSplit {α : Type} (ts : List α) : List α := ts.take (ts.length - 48)

/-- `test = ts_features.iloc[-48:]`: Python's `l[-48:]` keeps the last 48
elements (all of `l` when it is shorter). -/
def testSplit {α : Type} (ts : List α) : List α := ts.drop (ts.length - 48)

/-- An hourly bucket of the resampled series: (hour timestamp, order count). -/
abbrev Bucket := ℕ × ℕ

/-- The buckets of the resampled series are in strictly increasing time
order, as `resample('H').size()` produces them. -/
def Chronological (ts : List Bucket) : Prop :=
  List.Pairwise (fun a b => a.1 < b.1) ts

instance (ts : List Bucket) : Decidable (Chronological ts) := by
  unfold Chronological; infer_instance

/-- A concrete chronological series of 50 hourly buckets for witnessing. -/
def exSeries : List Bucket := (List.range 50).map (fun i => (i, i % 7))

end Forecast

namespace Instamart

theorem mem_generate {n : ℕ} {draws : ℕ → Draws} {row : Row}
    (h : row ∈ generate_swiggy_data n draws) :
    ∃ i, i < n ∧ row = addContributionMargin (makeOrder i (draws i)) := by
  obtain ⟨i, hi, hrow⟩ := List.mem_map.mp h
  exact ⟨i, List.mem_range.mp hi, hrow.symm⟩

/-- Claim C1: every row of the generated table satisfies
`contribution_margin = order_value - delivery_cost - discount`, exactly, as an
arithmetic identity over the row's own fields. -/
theorem contribution_margin_identity (n : ℕ) (draws : ℕ → Draws) (row : Row)
    (hrow : row ∈ generate_swiggy_data n draws) :
    row.contribution_margin =
      row.order_value - (row.delivery_cost : ℚ) - (row.discount : ℚ) := by
  obtain ⟨i, -, rfl⟩ := mem_generate hrow
  rfl

/-- Witness for C1 at a one-row table built from `exDraws`. -/
theorem contribution_margin_identity_witness :
    (addContributionMargin (makeOrder 0 exDraws)).contribution_margin =
      (addContributionMargin (makeOrder 0 exDraws)).order_value
      - ((addContributionMargin (makeOrder 0 exDraws)).delivery_cost : ℚ)
      - ((addContributionMargin (makeOrder 0 exDraws)).discount : ℚ) :=
  contribution_margin_identity 1 (fun _ => exDraws) _
    (by simp [generate_swiggy_data])

/-- Claim C2: in the generator's normalized hour-of-day distribution, the
probability mass on hours {12,13,14,15,16,19,20,21,22,23} strictly exceeds
the mass on the remaining 14 hours, so an order's hour is more likely to fall
in that set than outside it. -/
theorem peak_hours_majority :
    ∑ h in Finset.range 24 \ peakHours, hourProb h <
      ∑ h in peakHours, hourProb h := by
  have hs : probs.sum = 101/100 := by
    rw [show probs = [1/100, 1/100, 1/100, 1/100, 1/100, 1/100, 1/100,
      4/100, 4/100, 4/100, 4/100, 4/100, 3/100, 3/100, 3/100, 3/100, 3/100,
      11/100, 11/100, 11/100, 11/100, 11/100, 2/100, 2/100] from rfl]
    norm_num
  have h0 : hourProb 0 = 1/100 / probs.sum := rfl
  have h1 : hourProb 1 = 1/100 / probs.sum := rfl
  have h2 : hourProb 2 = 1/100 / probs.sum := rfl
  have h3 : hourProb 3 = 1/100 / probs.sum := rfl
  have h4 : hourProb 4 = 1/100 / probs.sum := rfl
  have h5 : hourProb 5 = 1/100 / probs.sum := rfl
  have h6 : hourProb 6 = 1/100 / probs.sum := rfl
  have h7 : hourProb 7 = 4/100 / probs.sum := rfl
  have h8 : hourProb 8 = 4/100 / probs.sum := rfl
  have h9 : hourProb 9 = 4/100 / probs.sum := rfl
  have h10 : hourProb 10 = 4/100 / probs.sum := rfl
  have h11 : hourProb 11 = 4/100 / probs.sum := rfl
  have h12 : hourProb 12 = 3/100 / probs.sum := rfl
  have h13 : hourProb 13 = 3/100 / probs.sum := rfl
  have h14 : hourProb 14 = 3/100 / probs.sum := rfl
  have h15 : hourProb 15 = 3/100 / probs.sum := rfl
  have h16 : hourProb 16 = 3/100 / probs.sum := rfl
  have h17 : hourProb 17 = 11/100 / probs.sum := rfl
  have h18 : hourProb 18 = 11/100 / probs.sum := rfl
  have h19 : hourProb 19 = 11/100 / probs.sum := rfl
  have h20 : hourProb 20 = 11/100 / probs.sum := rfl
  have h21 : hourProb 21 = 11/100 / probs.sum := rfl
  have h22 : hourProb 22 = 2/100 / probs.sum := rfl
  have h23 : hourProb 23 = 2/100 / probs.sum := rfl
  have hcomp : Finset.range 24 \ peakHours =
      ({0, 1, 2, 3, 4, 5, 6, 7, 8, 9, 10, 11, 17, 18} : Finset ℕ) := by decide
  rw [hcomp]
  simp [peakHours, Finset.sum_insert, Finset.mem_insert, Finset.mem_singleton,
    h0, h1, h2, h3, h4, h5, h6, h7, h8, h9, h10, h11, h12, h13, h14, h15,
    h16, h17, h18, h19, h20, h21, h22, h23, hs]
  norm_num

/-- Claim C3: a generated order of category "Perishable" has
`freshness_hrs_left` in [1, 48] (given the `randint(1, 48)` draw range); any
other category yields exactly 500. -/
theorem freshness_rule (i : ℕ) (d : Draws)
    (h1 : 1 ≤ d.freshness_draw) (h2 : d.freshness_draw ≤ 48) :
    ((makeOrder i d).category = "Perishable" →
      1 ≤ (makeOrder i d).freshness_hrs_left ∧
      (makeOrder i d).freshness_hrs_left ≤ 48) ∧
    ((makeOrder i d).category ≠ "Perishable" →
      (makeOrder i d).freshness_hrs_left = 500) := by
  have hfr : (makeOrder i d).freshness_hrs_left
      = if (makeOrder i d).category = "Perishable" then d.freshness_draw
        else 500 := rfl
  constructor <;> intro hc <;> rw [hfr] <;> simp [hc]
  omega

/-- Witness for C3 at `exDraws` (a Perishable order). -/
theorem freshness_rule_witness :
    (1 ≤ exDraws.freshness_draw ∧ exDraws.freshness_draw ≤ 48) ∧
    (((makeOrder 0 exDraws).category = "Perishable" →
      1 ≤ (makeOrder 0 exDraws).freshness_hrs_left ∧
      (makeOrder 0 exDraws).freshness_hrs_left ≤ 48) ∧
    ((makeOrder 0 exDraws).category ≠ "Perishable" →
      (makeOrder 0 exDraws).freshness_hrs_left = 500)) :=
  ⟨by decide, freshness_rule 0 exDraws (by decide) (by decide)⟩

/-- Claim C4: `delivery_time_mins` is at least 10 (given the base draw's
floor of 10); under Rainy weather it equals the base draw plus exactly 15,
and otherwise it equals the base draw unchanged. -/
theorem delivery_time_rule (i : ℕ) (d : Draws) (h1 : 10 ≤ d.base_delivery) :
    10 ≤ (makeOrder i d).delivery_time_mins ∧
    ((makeOrder i d).weather = "Rainy" →
      (makeOrder i d).delivery_time_mins = d.base_delivery + 15) ∧
    ((makeOrder i d).weather ≠ "Rainy" →
      (makeOrder i d).delivery_time_mins = d.base_delivery) := by
  have hw : (makeOrder i d).delivery_time_mins
      = d.base_delivery +
        (if (makeOrder i d).weather = "Rainy" then 15 else 0) := rfl
  refine ⟨?_, fun hc => by rw [hw]; simp [hc], fun hc => by rw [hw]; simp [hc]⟩
  rw [hw]; split <;> omega

/-- Witness for C4 at `exDraws` (a Rainy order with base draw 20). -/
theorem delivery_time_rule_witness :
    10 ≤ exDraws.base_delivery ∧
    (10 ≤ (makeOrder 0 exDraws).delivery_time_mins ∧
    ((makeOrder 0 exDraws).weather = "Rainy" →
      (makeOrder 0 exDraws).delivery_time_mins = exDraws.base_delivery + 15) ∧
    ((makeOrder 0 exDraws).weather ≠ "Rainy" →
      (makeOrder 0 exDraws).delivery_time_mins = exDraws.base_delivery)) :=
  ⟨by decide, delivery_time_rule 0 exDraws (by decide)⟩

/-- Claim C5: every row's `delivery_cost` is 45 when its
`delivery_time_mins` is strictly greater than 30, and exactly 40 otherwise. -/
theorem delivery_cost_rule (n : ℕ) (draws : ℕ → Draws) (row : Row)
    (hrow : row ∈ generate_swiggy_data n draws) :
    (30 < row.delivery_time_mins → row.delivery_cost = 40 + 5) ∧
    (row.delivery_time_mins ≤ 30 → row.delivery_cost = 40) := by
  obtain ⟨i, -, rfl⟩ := mem_generate hrow
  have h : (addContributionMargin (makeOrder i (draws i))).delivery_cost
      = 40 + (if 30 <
          (addContributionMargin (makeOrder i (draws i))).delivery_time_mins
        then 5 else 0) := rfl
  refine ⟨fun hdt => ?_, fun hdt => ?_⟩ <;> rw [h] <;> split <;> omega

/-- Witness for C5 at a one-row table built from `exDraws`
(`delivery_time_mins = 35 > 30`, so the cost is 45). -/
theorem delivery_cost_rule_witness :
    (30 < (addContributionMargin (makeOrder 0 exDraws)).delivery_time_mins →
      (addContributionMargin (makeOrder 0 exDraws)).delivery_cost = 40 + 5) ∧
    ((addContributionMargin (makeOrder 0 exDraws)).delivery_time_mins ≤ 30 →
      (addContributionMargin (makeOrder 0 exDraws)).delivery_cost = 40) :=
  delivery_cost_rule 1 (fun _ => exDraws) _ (by simp [generate_swiggy_data])

/-- Claim C6: for every order count `n` the generated table has exactly `n`
rows, and the DataFrame's columns are exactly the 11 names, in order:
order_id, order_time, zone, category, order_value, delivery_time_mins,
weather, delivery_cost, discount, freshness_hrs_left, contribution_margin. -/
theorem table_shape (n : ℕ) (draws : ℕ → Draws) :
    (generate_swiggy_data n draws).length = n ∧
    dataframeColumns =
      ["order_id", "order_time", "zone", "category", "order_value",
       "delivery_time_mins", "weather", "delivery_cost", "discount",
       "freshness_hrs_left", "contribution_margin"] ∧
    dataframeColumns.length = 11 := by
  refine ⟨?_, rfl, rfl⟩
  simp [generate_swiggy_data]

/-- Claim C7: within one run of `n` orders, the `order_id` column is exactly
the contiguous range 100000, 100001, …, 100000 + n − 1 in order, hence its
values are pairwise distinct. -/
theorem order_ids_contiguous (n : ℕ) (draws : ℕ → Draws) :
    (generate_swiggy_data n draws).map (fun r => r.order_id)
        = (List.range n).map (fun i => 100000 + i) ∧
    ((generate_swiggy_data n draws).map (fun r => r.order_id)).Nodup := by
  have h : (generate_swiggy_data n draws).map (fun r => r.order_id)
      = (List.range n).map (fun i => 100000 + i) := by
    simp only [generate_swiggy_data, List.map_map]
    rfl
  refine ⟨h, ?_⟩
  rw [h]
  exact List.Nodup.map (fun a b hab => by omega) (List.nodup_range n)

end Instamart

namespace Instamart

theorem round2_bounds {q : ℚ} (h1 : 150 ≤ q) (h2 : q ≤ 1200) :
    150 ≤ round2 q ∧ round2 q ≤ 1200 := by
  unfold round2
  constructor
  · have hlo : (15000 : ℤ) ≤ round (100 * q) := by
      rw [round_eq]
      exact Int.le_floor.mpr (by push_cast; linarith)
    have hlo' : (15000 : ℚ) ≤ ((round (100 * q) : ℤ) : ℚ) := by exact_mod_cast hlo
    linarith
  · have hhi : round (100 * q) < 120001 := by
      rw [round_eq]
      exact Int.floor_lt.mpr (by push_cast; linarith)
    have hhi' : ((round (100 * q) : ℤ) : ℚ) ≤ 120000 := by
      exact_mod_cast Int.lt_add_one_iff.mp (by omega)
    linarith

theorem discount_bounds (idx : Fin 5) :
    0 ≤ discountChoices.get idx ∧ discountChoices.get idx ≤ 100 := by
  fin_cases idx <;> exact ⟨by decide, by decide⟩

/-- Claim C9: every generated order's contribution margin is strictly
positive, in fact at least 5: the order value is at least 150, the delivery
cost at most 45, and the discount at most 100. -/
theorem contribution_margin_positive (i : ℕ) (d : Draws) (hv : d.Valid) :
    0 < (addContributionMargin (makeOrder i d)).contribution_margin ∧
    5 ≤ (addContributionMargin (makeOrder i d)).contribution_margin := by
  obtain ⟨-, -, -, hov1, hov2, hb1, hb2, -, -⟩ := hv
  have hov := round2_bounds hov1 hov2
  have hdc : (makeOrder i d).delivery_cost ≤ 45 ∧
      40 ≤ (makeOrder i d).delivery_cost := by
    have h : (makeOrder i d).delivery_cost
        = 40 + (if 30 < (makeOrder i d).delivery_time_mins then 5 else 0) := rfl
    rw [h]; constructor <;> split <;> omega
  have hdisc : 0 ≤ (makeOrder i d).discount ∧
      (makeOrder i d).discount ≤ 100 := by
    have h : (makeOrder i d).discount = discountChoices.get d.discount_idx := rfl
    rw [h]; exact discount_bounds d.discount_idx
  have hcm : (addContributionMargin (makeOrder i d)).contribution_margin
      = round2 d.order_value_raw - ((makeOrder i d).delivery_cost : ℚ)
        - ((makeOrder i d).discount : ℚ) := rfl
  have hdcq : ((makeOrder i d).delivery_cost : ℚ) ≤ 45 := by exact_mod_cast hdc.1
  have hdiscq : ((makeOrder i d).discount : ℚ) ≤ 100 := by exact_mod_cast hdisc.2
  rw [hcm]
  constructor <;> linarith [hov.1]

/-- Witness for C9 at `exDraws`. -/
theorem contribution_margin_positive_witness :
    exDraws.Valid ∧
    (0 < (addContributionMargin (makeOrder 0 exDraws)).contribution_margin ∧
    5 ≤ (addContributionMargin (makeOrder 0 exDraws)).contribution_margin) :=
  ⟨by constructor <;> norm_num [exDraws],
   contribution_margin_positive 0 exDraws
     (by constructor <;> norm_num [exDraws])⟩

/-- Claim C10: the hour-of-day component of `order_time` equals the hour
sampled from the 24-bucket weighted distribution: the start date is midnight
and the day offset and minute (0–59) never carry into the hour. -/
theorem order_hour_matches_draw (i : ℕ) (d : Draws)
    (hh : d.hour ≤ 23) (hm : d.minute ≤ 59) :
    hourOfDay (makeOrder i d).order_time_mins = d.hour := by
  have h : (makeOrder i d).order_time_mins
      = d.day * 1440 + d.hour * 60 + d.minute := rfl
  rw [h]
  unfold hourOfDay
  omega

/-- Witness for C10 at `exDraws` (day 2, hour 13, minute 30). -/
theorem order_hour_matches_draw_witness :
    (exDraws.hour ≤ 23 ∧ exDraws.minute ≤ 59) ∧
    hourOfDay (makeOrder 0 exDraws).order_time_mins = exDraws.hour :=
  ⟨by decide, order_hour_matches_draw 0 exDraws (by decide) (by decide)⟩

end Instamart

namespace Forecast

/-- Claim C8: on a chronologically ordered hourly-bucket series of at least
48 buckets, the forecaster's split keeps order and loses nothing
(`train ++ test` is the whole series), the test set is exactly the most
recent 48 buckets, the training set is exactly the rest, and every training
bucket is strictly earlier in time than every test bucket (so no bucket is
shuffled, dropped, or shared). -/
theorem chronological_split (ts : List Bucket) (hlen : 48 ≤ ts.length)
    (hchron : Chronological ts) :
    trainSplit ts ++ testSplit ts = ts ∧
    (testSplit ts).length = 48 ∧
    (trainSplit ts).length = ts.length - 48 ∧
    (∀ x ∈ trainSplit ts, ∀ y ∈ testSplit ts, x.1 < y.1) := by
  have happ : trainSplit ts ++ testSplit ts = ts := List.take_append_drop _ ts
  have hpw : List.Pairwise (fun a b => a.1 < b.1)
      (trainSplit ts ++ testSplit ts) := by rw [happ]; exact hchron
  refine ⟨happ, ?_, ?_, (List.pairwise_append.mp hpw).2.2⟩
  · simp only [testSplit, List.length_drop]
    omega
  · simp only [trainSplit, List.length_take]
    omega

/-- Witness for C8 on the concrete 50-bucket series `exSeries`. -/
theorem chronological_split_witness :
    (48 ≤ exSeries.length ∧ Chronological exSeries) ∧
    (trainSplit exSeries ++ testSplit exSeries = exSeries ∧
    (testSplit exSeries).length = 48 ∧
    (trainSplit exSeries).length = exSeries.length - 48 ∧
    (∀ x ∈ trainSplit exSeries, ∀ y ∈ testSplit exSeries, x.1 < y.1)) :=
  ⟨⟨by decide, by decide⟩, chronological_split exSeries (by decide) (by decide)⟩

end Forecast
